import Mathlib

/-!
Shallow embedding of the sentiment-analysis engine
(`nanobot/skills/sentiment-monitor/scripts/analyze_sentiment.py`) and proofs
about its normalization, classification, risk detection, topic extraction and
aggregation behaviour.

Python strings are modelled as Lean `String`, Python integers as `ℤ`,
Python floats produced by the scoring formulas as `ℚ` (the formulas are
exact arithmetic on small integers), raw JSON-ish records as association
lists of string keys to a `JVal` (string or integer) value, and Python
dicts used as accumulators as association lists in insertion order
(CPython dicts and `Counter` preserve insertion order).  Code that can
raise inside the per-record `try` is modelled with `Option`, `none`
meaning the record raised and is skipped.
-/

namespace SentimentMonitor

/-! ### Python string primitives -/

/-- `isLeadingOf kw text` is true when `kw` occurs at the start of `text`
(character lists). -/
def isLeadingOf : List Char → List Char → Bool
  | [], _ => true
  | _ :: _, [] => false
  | a :: as, b :: bs => a == b && isLeadingOf as bs

/-- `subOccurs kw text` is true when `kw` occurs contiguously somewhere in
`text`: the model of Python's `kw in text` on strings. -/
def subOccurs (kw : List Char) : List Char → Bool
  | [] => kw.isEmpty
  | c :: rest => isLeadingOf kw (c :: rest) || subOccurs kw rest

/-- Python `kw in text` substring test on `String`. -/
def containsSub (kw text : String) : Bool :=
  subOccurs kw.data text.data

/-- ASCII whitespace, the model of the characters removed by Python
`str.strip()` on the texts that occur here. -/
def isPySpace (c : Char) : Bool :=
  c == ' ' || c == '\t' || c == '\n' || c == '\r'

/-- Remove leading and trailing whitespace from a character list. -/
def trimChars (l : List Char) : List Char :=
  ((l.dropWhile isPySpace).reverse.dropWhile isPySpace).reverse

/-- Python `str.strip()`. -/
def stripStr (s : String) : String :=
  String.mk (trimChars s.data)

/-- Split a character list on `,`, the model of Python `str.split(",")`. -/
def splitCommaChars : List Char → List (List Char)
  | [] => [[]]
  | c :: rest =>
    match splitCommaChars rest with
    | [] => [[]]
    | g :: gs => if c == ',' then [] :: g :: gs else (c :: g) :: gs

/-- Accumulate a decimal digit string; `none` if a non-digit appears. -/
def digitsToNatAux (acc : ℕ) : List Char → Option ℕ
  | [] => some acc
  | c :: rest =>
    if c.isDigit then digitsToNatAux (acc * 10 + (c.toNat - 48)) rest else none

/-- Model of Python `int(s)` on a string: strip whitespace, optional sign,
then a non-empty run of decimal digits; `none` models a raised
`ValueError`. -/
def pyIntStr (s : String) : Option ℤ :=
  match trimChars s.data with
  | [] => none
  | c :: rest =>
    if c = '-' then
      match rest with
      | [] => none
      | _ => (digitsToNatAux 0 rest).map (fun n => -(n : ℤ))
    else if c = '+' then
      match rest with
      | [] => none
      | _ => (digitsToNatAux 0 rest).map (fun n => (n : ℤ))
    else (digitsToNatAux 0 (c :: rest)).map (fun n => (n : ℤ))

/-! ### Raw records -/

/-- A JSON-ish scalar value stored in a raw platform record: the record
fields exercised by the engine are strings or integers. -/
inductive JVal where
  | str (s : String)
  | num (n : ℤ)
deriving DecidableEq, Repr

/-- A raw platform record: a string-keyed field mapping (Python dict). -/
abbrev Raw : Type := List (String × JVal)

/-- Field lookup without default, the model of Python `dict.get(k)`
(first occurrence wins; real dicts have unique keys). -/
def lookupJ (r : Raw) (k : String) : Option JVal :=
  (r.find? (fun p => p.1 == k)).map (·.2)

/-- Field lookup with default, the model of Python `dict.get(k, d)`. -/
def getJ (r : Raw) (k : String) (d : JVal) : JVal :=
  (lookupJ r k).getD d

/-- Python truthiness of a `JVal`: empty string and integer zero are falsy. -/
def jFalsy : JVal → Bool
  | .str s => s == ""
  | .num n => n == 0

/-- Python `str(v)` / f-string rendering of a `JVal`. -/
def jToStr : JVal → String
  | .str s => s
  | .num n => toString n

/-- Model of `int(item.get(k, "0") or "0")`: a missing or falsy value falls
back to `"0"`; a non-numeric value makes the conversion raise (`none`). -/
def engField (r : Raw) (k : String) : Option ℤ :=
  let v := getJ r k (JVal.str "0")
  let v := if jFalsy v then JVal.str "0" else v
  match v with
  | .num n => some n
  | .str s => pyIntStr s

/-! ### Configuration and canonical items -/

/-- The configuration fields read by the engine
(`config["sentiment_keywords"]["positive"/"negative"]`,
`config.get("positive_override_keywords", [])`, `config["risk_keywords"]`,
`config["thresholds"]["risk_priority_high_keywords"]`,
`config.get("competitor_keywords", {})` as an ordered mapping, and
`config["platforms"]`). -/
structure Config where
  sentiment_positive : List String
  sentiment_negative : List String
  positive_override_keywords : List String
  risk_keywords : List String
  risk_priority_high_keywords : List String
  competitor_keywords : List (String × List String)
  platforms : List String
deriving DecidableEq, Repr

/-- A normalized content item as built by `normalize_platform_data`, before
sentiment is attached.  Fields copied through unchanged from the raw record
keep their `JVal` value; `content` is always a string (the per-platform
branches build it with an f-string or pass the text field through). -/
structure Item where
  id : JVal
  platform : String
  type : JVal
  title : JVal
  content : String
  url : JVal
  created_at : JVal
  author_id : JVal
  author_name : JVal
  author_avatar : JVal
  engagement : List (String × ℤ)
  tags : List String
deriving DecidableEq, Repr

/-- `item.get("tag_list", "").split(",")` with per-element strip and
non-empty filter; a non-string `tag_list` would raise on `.split`. -/
def xhsTags (r : Raw) : Option (List String) :=
  match getJ r "tag_list" (JVal.str "") with
  | .str s =>
    some ((((splitCommaChars s.data).map (fun t => String.mk (trimChars t))).filter
      (fun t => !t.isEmpty)))
  | .num _ => none

/-- The `platform == "xhs"` branch of `normalize_platform_data`. -/
def buildXhs (r : Raw) : Option Item := do
  let likes ← engField r "liked_count"
  let comments ← engField r "comment_count"
  let shares ← engField r "share_count"
  let collects ← engField r "collected_count"
  let tags ← xhsTags r
  pure
    { id := getJ r "note_id" (JVal.str "")
      platform := "xhs"
      type := getJ r "type" (JVal.str "note")
      title := getJ r "title" (JVal.str "")
      content := stripStr (jToStr (getJ r "title" (JVal.str "")) ++ " " ++
        jToStr (getJ r "desc" (JVal.str "")))
      url := getJ r "note_url" (JVal.str "")
      created_at := getJ r "time" (JVal.num 0)
      author_id := getJ r "user_id" (JVal.str "")
      author_name := getJ r "nickname" (JVal.str "")
      author_avatar := getJ r "avatar" (JVal.str "")
      engagement := [("likes", likes), ("comments", comments),
        ("shares", shares), ("collects", collects)]
      tags := tags }

/-- The `platform == "dy" or platform == "douyin"` branch. -/
def buildDy (r : Raw) : Option Item := do
  let likes ← engField r "liked_count"
  let comments ← engField r "comment_count"
  let shares ← engField r "share_count"
  let collects ← engField r "collected_count"
  pure
    { id := getJ r "aweme_id" (JVal.str "")
      platform := "dy"
      type := if lookupJ r "aweme_type" = some (JVal.str "0") then
          JVal.str "video" else JVal.str "image"
      title := getJ r "title" (JVal.str "")
      content := stripStr (jToStr (getJ r "title" (JVal.str "")) ++ " " ++
        jToStr (getJ r "desc" (JVal.str "")))
      url := getJ r "aweme_url" (JVal.str "")
      created_at := getJ r "create_time" (JVal.num 0)
      author_id := getJ r "user_id" (JVal.str "")
      author_name := getJ r "nickname" (JVal.str "")
      author_avatar := getJ r "avatar" (JVal.str "")
      engagement := [("likes", likes), ("comments", comments),
        ("shares", shares), ("collects", collects)]
      tags := [] }

/-- The `platform == "bili"` branch. -/
def buildBili (r : Raw) : Option Item := do
  let likes ← engField r "liked_count"
  let views ← engField r "video_play_count"
  let favorites ← engField r "video_favorite_count"
  let shares ← engField r "video_share_count"
  let comments ← engField r "video_comment"
  pure
    { id := JVal.str (jToStr (getJ r "video_id" (JVal.str "")))
      platform := "bili"
      type := getJ r "video_type" (JVal.str "video")
      title := getJ r "title" (JVal.str "")
      content := stripStr (jToStr (getJ r "title" (JVal.str "")) ++ " " ++
        jToStr (getJ r "desc" (JVal.str "")))
      url := getJ r "video_url" (JVal.str "")
      created_at := getJ r "create_time" (JVal.num 0)
      author_id := JVal.str (jToStr (getJ r "user_id" (JVal.str "")))
      author_name := getJ r "nickname" (JVal.str "")
      author_avatar := JVal.str ""
      engagement := [("likes", likes), ("views", views),
        ("favorites", favorites), ("shares", shares), ("comments", comments)]
      tags := [] }

/-- The `platform == "wb"` branch. -/
def buildWb (r : Raw) : Option Item := do
  let likes ← engField r "attitudes_count"
  let comments ← engField r "comments_count"
  let shares ← engField r "reposts_count"
  pure
    { id := getJ r "mblog_id" (JVal.str "")
      platform := "wb"
      type := JVal.str "post"
      title := JVal.str ""
      content := jToStr (getJ r "mblog_text" (JVal.str ""))
      url := getJ r "mblog_url" (JVal.str "")
      created_at := getJ r "mblog_created_at" (JVal.num 0)
      author_id := JVal.str (jToStr (getJ r "user_id" (JVal.str "")))
      author_name := getJ r "nickname" (JVal.str "")
      author_avatar := getJ r "avatar" (JVal.str "")
      engagement := [("likes", likes), ("comments", comments), ("shares", shares)]
      tags := [] }

/-- The platform dispatch (`if platform == ... elif ... else: continue`):
an unrecognized platform yields no item. -/
def buildPlatform (platform : String) (r : Raw) : Option Item :=
  if platform = "xhs" then buildXhs r
  else if platform = "dy" ∨ platform = "douyin" then buildDy r
  else if platform = "bili" then buildBili r
  else if platform = "wb" then buildWb r
  else none

/-- One iteration of the `normalize_platform_data` loop: unknown platform,
a raised exception during field mapping, and an empty final body text all
skip the record. -/
def normalize_one (platform : String) (r : Raw) : Option Item :=
  match buildPlatform platform r with
  | none => none
  | some it => if it.content = "" then none else some it

/-- `normalize_platform_data`: normalize a batch, silently dropping
records the loop skips. -/
def normalize_platform_data (raw_data : List Raw) (platform : String) : List Item :=
  raw_data.filterMap (normalize_one platform)

/-! ### Sentiment classification -/

/-- `sum(1 for kw in kws if kw in text)`: presence-based keyword count,
one per keyword regardless of how often it repeats inside `text`. -/
def countHits (kws : List String) (text : String) : ℕ :=
  (kws.filter (fun kw => containsSub kw text)).length

/-- `classify_sentiment(text, config)`: keyword counting, override
suppression of the negative count, and the four-way decision on the
counts, returning `(label, score, confidence)`. -/
def classify_sentiment (text : String) (cfg : Config) : String × ℚ × ℚ :=
  let has_positive_override :=
    cfg.positive_override_keywords.any (fun kw => containsSub kw text)
  let positive_count := countHits cfg.sentiment_positive text
  let negative_count0 := countHits cfg.sentiment_negative text
  let negative_count :=
    if has_positive_override = true ∧ 0 < negative_count0 then 0 else negative_count0
  let total_count := positive_count + negative_count
  if total_count = 0 then ("neutral", 0, 3/10)
  else if negative_count < positive_count then
    ("positive", min 1 ((positive_count : ℚ) / (total_count : ℚ)),
      min 1 ((total_count : ℚ) / 5))
  else if positive_count < negative_count then
    ("negative", -(min 1 ((negative_count : ℚ) / (total_count : ℚ))),
      min 1 ((total_count : ℚ) / 5))
  else ("neutral", 0, 1/2)

/-- The suppressed negative count computed inside `classify_sentiment`. -/
def suppressedNegativeCount (text : String) (cfg : Config) : ℕ :=
  if cfg.positive_override_keywords.any (fun kw => containsSub kw text) = true ∧
      0 < countHits cfg.sentiment_negative text
  then 0 else countHits cfg.sentiment_negative text

/-- `classify_competitor(text, config)`: first organization (in the
configured order) with a keyword occurring in the text, else
`"unknown"`. -/
def classify_competitor (text : String) (cfg : Config) : String :=
  match cfg.competitor_keywords.find?
      (fun p => p.2.any (fun kw => containsSub kw text)) with
  | some p => p.1
  | none => "unknown"

/-! ### Items with sentiment attached, and risk detection -/

/-- A comment record as consumed by the comment-correlation loop: the
fields the loop reads (`content`, `nickname`, `like_count`), plus the
`sentiment` entry it writes back into the record. -/
structure Comment where
  content : String
  nickname : String
  like_count : ℤ
  sentiment : Option (String × ℚ) := none
deriving DecidableEq, Repr

/-- The three-key sentiment histogram
`{"positive": _, "neutral": _, "negative": _}`. -/
structure Hist where
  positive : ℕ
  neutral : ℕ
  negative : ℕ
deriving DecidableEq, Repr

/-- Increment the histogram entry of a classifier label.  (The source
would raise `KeyError` on a label outside the classifier's three-value
range; such labels never reach it.) -/
def Hist.bump (h : Hist) (label : String) : Hist :=
  if label = "positive" then { h with positive := h.positive + 1 }
  else if label = "neutral" then { h with neutral := h.neutral + 1 }
  else if label = "negative" then { h with negative := h.negative + 1 }
  else h

/-- A normalized item after the orchestrator attached sentiment,
competitor, and (optionally) comment data by in-place mutation; `none`
in `comments` / `comment_sentiment_dist` models the key being absent. -/
structure SItem where
  id : JVal
  platform : String
  type : JVal
  title : JVal
  content : String
  url : JVal
  created_at : JVal
  author_id : JVal
  author_name : JVal
  author_avatar : JVal
  engagement : List (String × ℤ)
  tags : List String
  sentiment_label : String
  sentiment_score : ℚ
  sentiment_confidence : ℚ
  competitor : String
  comments : Option (List Comment)
  comment_sentiment_dist : Option Hist
deriving DecidableEq, Repr

/-- `sum(item["engagement"].values())`. -/
def sumEng (l : List (String × ℤ)) : ℤ :=
  l.foldl (fun s p => s + p.2) 0

/-- The sentiment/competitor classification pass of `analyze_all_data`
applied to one normalized item. -/
def classifyItem (cfg : Config) (it : Item) : SItem :=
  let r := classify_sentiment it.content cfg
  { id := it.id, platform := it.platform, type := it.type, title := it.title
    content := it.content, url := it.url, created_at := it.created_at
    author_id := it.author_id, author_name := it.author_name
    author_avatar := it.author_avatar
    engagement := it.engagement, tags := it.tags
    sentiment_label := r.1, sentiment_score := r.2.1
    sentiment_confidence := r.2.2
    competitor := classify_competitor it.content cfg
    comments := none, comment_sentiment_dist := none }

/-- One risk entry produced by `detect_risks`. -/
structure RiskEntry where
  item : SItem
  severity : String
  keywords : List String
  engagement : ℤ
  reason : String
deriving DecidableEq, Repr

/-- One iteration of the `detect_risks` loop: only negative/neutral items,
at least one risk keyword, no override keyword; severity from the
high-priority keyword subset. -/
def riskEntryOf (cfg : Config) (item : SItem) : Option RiskEntry :=
  if item.sentiment_label = "negative" ∨ item.sentiment_label = "neutral" then
    let matched := cfg.risk_keywords.filter (fun kw => containsSub kw item.content)
    if matched.isEmpty then none
    else if cfg.positive_override_keywords.any (fun kw => containsSub kw item.content) then none
    else some
      { item := item
        severity :=
          if cfg.risk_priority_high_keywords.any (fun kw => containsSub kw item.content)
          then "high" else "medium"
        keywords := matched
        engagement := sumEng item.engagement
        reason := "检测到风险关键词: " ++ String.intercalate ", " (matched.take 3) }
  else none

/-- `0 if severity == "high" else 1`: the first component of the sort key. -/
def sevRank (s : String) : ℕ :=
  if s = "high" then 0 else 1

/-- The sort order of `risks.sort(key=lambda x: (0 if x["severity"] == "high"
else 1, -x["engagement"]))`: ascending severity rank, then descending
engagement. -/
def riskLe (a b : RiskEntry) : Prop :=
  sevRank a.severity < sevRank b.severity ∨
    (sevRank a.severity = sevRank b.severity ∧ b.engagement ≤ a.engagement)

instance : DecidableRel riskLe := fun a b =>
  inferInstanceAs (Decidable (sevRank a.severity < sevRank b.severity ∨
    (sevRank a.severity = sevRank b.severity ∧ b.engagement ≤ a.engagement)))

instance : IsTotal RiskEntry riskLe :=
  ⟨by intro a b; unfold riskLe; omega⟩

instance : IsTrans RiskEntry riskLe :=
  ⟨by intro a b c; unfold riskLe; omega⟩

/-- `detect_risks(items, config)`: collect the entries in encounter order,
then sort stably by the severity/engagement key (Python `list.sort` is
stable; a stable sort by a total preorder is modelled by
`List.insertionSort`). -/
def detect_risks (items : List SItem) (cfg : Config) : List RiskEntry :=
  List.insertionSort riskLe (items.filterMap (riskEntryOf cfg))

/-! ### Trending topics -/

/-- `Counter[k] += d` on an insertion-ordered mapping: update in place,
or append a new key at the end. -/
def bumpCount (l : List (String × ℕ)) (k : String) (d : ℕ) : List (String × ℕ) :=
  match l with
  | [] => [(k, d)]
  | (k0, v) :: rest =>
    if k0 = k then (k0, v + d) :: rest else (k0, v) :: bumpCount rest k d

/-- `tag_engagement[tag] = tag_engagement.get(tag, 0) + engagement`. -/
def bumpEng (l : List (String × ℤ)) (k : String) (d : ℤ) : List (String × ℤ) :=
  match l with
  | [] => [(k, d)]
  | (k0, v) :: rest =>
    if k0 = k then (k0, v + d) :: rest else (k0, v) :: bumpEng rest k d

/-- `tag_sentiment` update: create a zero histogram for a new tag, then
increment the entry of the item's label. -/
def bumpHist (l : List (String × Hist)) (k : String) (label : String) :
    List (String × Hist) :=
  match l with
  | [] => [(k, Hist.bump ⟨0, 0, 0⟩ label)]
  | (k0, v) :: rest =>
    if k0 = k then (k0, v.bump label) :: rest else (k0, v) :: bumpHist rest k label

/-- The three tag accumulators of `extract_trending_topics`
(`tag_stats`, `tag_engagement`, `tag_sentiment`). -/
structure TagAcc where
  stats : List (String × ℕ)
  eng : List (String × ℤ)
  senti : List (String × Hist)
deriving DecidableEq, Repr

/-- The inner `for tag in tags` loop of `extract_trending_topics`:
empty tags are skipped, every other occurrence updates all three
accumulators. -/
def tallyTags (acc : TagAcc) (tags : List String) (e : ℤ) (label : String) : TagAcc :=
  match tags with
  | [] => acc
  | t :: rest =>
    if t = "" then tallyTags acc rest e label
    else tallyTags ⟨bumpCount acc.stats t 1, bumpEng acc.eng t e,
      bumpHist acc.senti t label⟩ rest e label

/-- The outer `for item in items` loop of `extract_trending_topics`. -/
def tagTally (items : List SItem) : TagAcc :=
  items.foldl
    (fun acc item => tallyTags acc item.tags (sumEng item.engagement) item.sentiment_label)
    ⟨[], [], []⟩

/-- Count lookup in `tag_stats` (0 for an absent tag). -/
def lookupNat : List (String × ℕ) → String → ℕ
  | [], _ => 0
  | (k0, v) :: rest, k => if k0 = k then v else lookupNat rest k

/-- Engagement lookup in `tag_engagement` (0 for an absent tag). -/
def lookupEngA : List (String × ℤ) → String → ℤ
  | [], _ => 0
  | (k0, v) :: rest, k => if k0 = k then v else lookupEngA rest k

/-- Histogram lookup in `tag_sentiment` (all-zero for an absent tag). -/
def lookupHist : List (String × Hist) → String → Hist
  | [], _ => ⟨0, 0, 0⟩
  | (k0, v) :: rest, k => if k0 = k then v else lookupHist rest k

/-- `max(sentiment_dist, key=sentiment_dist.get)` over the insertion
order `positive, neutral, negative`: Python `max` keeps the first
maximum, so later labels win only with a strictly greater count. -/
def dominantSentiment (h : Hist) : String :=
  let c1 := ("positive", h.positive)
  let c2 := if c1.2 < h.neutral then ("neutral", h.neutral) else c1
  let c3 := if c2.2 < h.negative then ("negative", h.negative) else c2
  c3.1

/-- One trending-topic summary. -/
structure TopicEntry where
  topic : String
  count : ℕ
  avg_engagement : ℚ
  sentiment : String
  sentiment_dist : Hist
deriving DecidableEq, Repr

/-- Descending count, stable: the order of `Counter.most_common(10)`
(documented as `sorted(..., key=count, reverse=True)[:10]`, which keeps
first-insertion order among equal counts). -/
def countGe (a b : String × ℕ) : Prop := b.2 ≤ a.2

instance : DecidableRel countGe := fun a b =>
  inferInstanceAs (Decidable (b.2 ≤ a.2))

instance : IsTotal (String × ℕ) countGe :=
  ⟨by intro a b; unfold countGe; omega⟩

instance : IsTrans (String × ℕ) countGe :=
  ⟨by intro a b c; unfold countGe; omega⟩

/-- `extract_trending_topics(items)`: tally tags, take the ten most
common, and report count, average engagement, dominant sentiment and the
full histogram per tag. -/
def extract_trending_topics (items : List SItem) : List TopicEntry :=
  let acc := tagTally items
  ((List.insertionSort countGe acc.stats).take 10).map (fun p =>
    { topic := p.1
      count := p.2
      avg_engagement := (lookupEngA acc.eng p.1 : ℚ) / (p.2 : ℚ)
      sentiment := dominantSentiment (lookupHist acc.senti p.1)
      sentiment_dist := lookupHist acc.senti p.1 })

/-! ### KOL identification -/

/-- One author aggregate of `identify_kols`. -/
structure KOLEntry where
  id : JVal
  name : JVal
  platform : String
  post_count : ℕ
  total_engagement : ℤ
  posts : List SItem
deriving DecidableEq, Repr

/-- Update the per-author stats mapping with one item (insertion-ordered
dict keyed by author id; the first-seen name and platform are kept). -/
def updateKol : List (JVal × KOLEntry) → SItem → List (JVal × KOLEntry)
  | [], item =>
    [(item.author_id,
      ⟨item.author_id, item.author_name, item.platform, 1,
        sumEng item.engagement, [item]⟩)]
  | (k, e) :: rest, item =>
    if k = item.author_id then
      (k, { e with post_count := e.post_count + 1
                   total_engagement := e.total_engagement + sumEng item.engagement
                   posts := e.posts ++ [item] }) :: rest
    else (k, e) :: updateKol rest item

/-- One iteration of the `identify_kols` loop: items without both an
author id and a display name are skipped. -/
def kolFold (stats : List (JVal × KOLEntry)) (item : SItem) : List (JVal × KOLEntry) :=
  if jFalsy item.author_id || jFalsy item.author_name then stats
  else updateKol stats item

/-- Descending total engagement, stable: the order of
`kols.sort(key=..., reverse=True)`. -/
def kolGe (a b : KOLEntry) : Prop := b.total_engagement ≤ a.total_engagement

instance : DecidableRel kolGe := fun a b =>
  inferInstanceAs (Decidable (b.total_engagement ≤ a.total_engagement))

instance : IsTotal KOLEntry kolGe :=
  ⟨by intro a b; unfold kolGe; omega⟩

instance : IsTrans KOLEntry kolGe :=
  ⟨by intro a b c; unfold kolGe; omega⟩

/-- `identify_kols(items, config)`: group by author, keep authors with
total engagement over 100, sort by engagement descending, top 10.  (The
`config` argument is accepted and unused, as in the source.) -/
def identify_kols (items : List SItem) (cfg : Config) : List KOLEntry :=
  let stats := items.foldl kolFold []
  let kols := (stats.map (·.2)).filter (fun a => 100 < a.total_engagement)
  (List.insertionSort kolGe kols).take 10

/-! ### Metrics aggregation -/

/-- `round` to the nearest integer, ties to even: CPython `round`. -/
def roundHalfEven (q : ℚ) : ℤ :=
  let f := ⌊q⌋
  if q - f < 1/2 then f
  else if 1/2 < q - f then f + 1
  else if f % 2 = 0 then f else f + 1

/-- Python `round(q, 1)`. -/
def round1 (q : ℚ) : ℚ :=
  (roundHalfEven (q * 10) : ℚ) / 10

/-- `Counter(xs)` over a list of strings as an insertion-ordered mapping. -/
def counterOf (keys : List String) : List (String × ℕ) :=
  keys.foldl (fun acc k => bumpCount acc k 1) []

/-- The result shape of `aggregate_metrics`. -/
structure AggregateMetrics where
  total_items : ℕ
  sentiment_dist : List (String × ℕ)
  sentiment_pct : List (String × ℚ)
  total_engagement : ℤ
  avg_engagement : ℚ
  platform_dist : List (String × ℕ)
deriving DecidableEq, Repr

/-- `sum(sum(item["engagement"].values()) for item in items)`. -/
def sumListEng (items : List SItem) : ℤ :=
  items.foldl (fun s i => s + sumEng i.engagement) 0

/-- `aggregate_metrics(items)`: zero-filled result for an empty batch,
otherwise sentiment counts/percentages, engagement totals/average, and
per-platform counts. -/
def aggregate_metrics (items : List SItem) : AggregateMetrics :=
  if items.length = 0 then
    { total_items := 0
      sentiment_dist := [("positive", 0), ("neutral", 0), ("negative", 0)]
      sentiment_pct := [("positive", 0), ("neutral", 0), ("negative", 0)]
      total_engagement := 0
      avg_engagement := 0
      platform_dist := [] }
  else
    let total := items.length
    let dist := counterOf (items.map (·.sentiment_label))
    let total_engagement := sumListEng items
    { total_items := total
      sentiment_dist := dist
      sentiment_pct := dist.map (fun p => (p.1, round1 ((p.2 : ℚ) / (total : ℚ) * 100)))
      total_engagement := total_engagement
      avg_engagement := round1 ((total_engagement : ℚ) / (total : ℚ))
      platform_dist := counterOf (items.map (·.platform)) }

/-! ### Per-platform analysis -/

/-- Descending total engagement on items, stable: the order of
`sorted(platform_items, key=..., reverse=True)`. -/
def engGe (a b : SItem) : Prop := sumEng b.engagement ≤ sumEng a.engagement

instance : DecidableRel engGe := fun a b =>
  inferInstanceAs (Decidable (sumEng b.engagement ≤ sumEng a.engagement))

instance : IsTotal SItem engGe :=
  ⟨by intro a b; unfold engGe; omega⟩

instance : IsTrans SItem engGe :=
  ⟨by intro a b c; unfold engGe; omega⟩

/-- The result shape of `analyze_platform_data`; the empty-input result
carries no `platform` key, modelled with `none`. -/
structure PlatformAnalysis where
  platform : Option String
  total_items : ℕ
  sentiment_dist : List (String × ℕ)
  avg_engagement : ℚ
  top_posts : List SItem
  topics : List TopicEntry
deriving DecidableEq, Repr

/-- `analyze_platform_data(platform_items, config)`. -/
def analyze_platform_data (platform_items : List SItem) (cfg : Config) :
    PlatformAnalysis :=
  match platform_items with
  | [] => { platform := none, total_items := 0, sentiment_dist := []
            avg_engagement := 0, top_posts := [], topics := [] }
  | first :: _ =>
    { platform := some first.platform
      total_items := platform_items.length
      sentiment_dist := counterOf (platform_items.map (·.sentiment_label))
      avg_engagement :=
        round1 ((sumListEng platform_items : ℚ) / (platform_items.length : ℚ))
      top_posts := (List.insertionSort engGe platform_items).take 5
      topics := (extract_trending_topics platform_items).take 5 }

/-! ### Comment correlation -/

/-- One entry of `comments_analysis["high_risk_comments"]`. -/
structure HighRiskComment where
  content : String
  keywords : List String
  parent_content_id : JVal
  author : String
  engagement : ℤ
deriving DecidableEq, Repr

/-- The `comments_analysis` accumulator. -/
structure CommentsAnalysis where
  total_comments : ℕ
  comments_sentiment : Hist
  high_risk_comments : List HighRiskComment
deriving DecidableEq, Repr

/-- Scoring of one comment (`classify_sentiment(comment_text, config)` on a
non-empty text, written back into the comment record); an empty text leaves
the comment unscored. -/
def scoreComment (cfg : Config) (c : Comment) : Comment :=
  if c.content = "" then c
  else
    let r := classify_sentiment c.content cfg
    { c with sentiment := some (r.1, r.2.1) }

/-- One iteration of the inner `for comment in item_comments` loop:
score the comment, update the per-item distribution and the global
comment statistics, and record it as high-risk when it is negative and
matches a risk keyword. -/
def processComment (cfg : Config) (itemId : JVal) (st : Hist × CommentsAnalysis)
    (c : Comment) : Comment × Hist × CommentsAnalysis :=
  if c.content = "" then (c, st)
  else
    let r := classify_sentiment c.content cfg
    let label := r.1
    let dist := st.1.bump label
    let ca := st.2
    let ca :=
      { ca with comments_sentiment := ca.comments_sentiment.bump label
                total_comments := ca.total_comments + 1 }
    let matched := cfg.risk_keywords.filter (fun kw => containsSub kw c.content)
    let ca :=
      if label = "negative" ∧ ¬matched.isEmpty then
        { ca with high_risk_comments := ca.high_risk_comments ++
            [⟨c.content, matched, itemId, c.nickname, c.like_count⟩] }
      else ca
    ({ c with sentiment := some (label, r.2.1) }, dist, ca)

/-- One iteration of the outer `for item in all_items` comment loop:
attach and score the comments found for this item's id; an item with no
comments still receives an empty list and a zero distribution. -/
def processItemComments (cfg : Config) (comments_data : List (JVal × List Comment))
    (ca : CommentsAnalysis) (item : SItem) : SItem × CommentsAnalysis :=
  let item_comments :=
    (((comments_data.find? (fun p => decide (p.1 = item.id))).map (·.2)).getD [])
  if item_comments.isEmpty then
    ({ item with comments := some []
                 comment_sentiment_dist := some ⟨0, 0, 0⟩ }, ca)
  else
    let res := item_comments.foldl
      (fun acc c =>
        let pr := processComment cfg item.id (acc.2.1, acc.2.2) c
        (acc.1 ++ [pr.1], pr.2.1, pr.2.2))
      (([] : List Comment), (⟨0, 0, 0⟩ : Hist), ca)
    ({ item with comments := some res.1
                 comment_sentiment_dist := some res.2.1 }, res.2.2)

/-- The comment-correlation stage of `analyze_all_data`: skipped entirely
(items untouched) when `comments_data` is empty/falsy. -/
def correlateComments (cfg : Config) (comments_data : List (JVal × List Comment))
    (items : List SItem) : List SItem × CommentsAnalysis :=
  if comments_data.isEmpty then (items, ⟨0, ⟨0, 0, 0⟩, []⟩)
  else
    items.foldl
      (fun acc item =>
        let pr := processItemComments cfg comments_data acc.2 item
        (acc.1 ++ [pr.1], pr.2))
      (([] : List SItem), (⟨0, ⟨0, 0, 0⟩, []⟩ : CommentsAnalysis))

/-! ### Data date label -/

/-- Normalize a timestamp: values at or above the 10,000,000,000
magnitude threshold are treated as milliseconds (`t / 1000`, true
division). -/
def tsNormalize (t : ℤ) : ℚ :=
  if t < 10000000000 then (t : ℚ) else (t : ℚ) / 1000

/-- Proleptic-Gregorian civil date from days since the Unix epoch
(floor divisions). -/
def civilFromDays (z0 : ℤ) : ℤ × ℤ × ℤ :=
  let z := z0 + 719468
  let era := Int.fdiv z 146097
  let doe := z - era * 146097
  let yoe := Int.fdiv (doe - Int.fdiv doe 1460 + Int.fdiv doe 36524 - Int.fdiv doe 146096) 365
  let y := yoe + era * 400
  let doy := doe - (365 * yoe + Int.fdiv yoe 4 - Int.fdiv yoe 100)
  let mp := Int.fdiv (5 * doy + 2) 153
  let d := doy - Int.fdiv (153 * mp + 2) 5 + 1
  let m := mp + (if mp < 10 then 3 else -9)
  (y + (if m ≤ 2 then 1 else 0), m, d)

/-- Zero-pad to two digits. -/
def pad2 (n : ℤ) : String :=
  if n < 10 then "0" ++ toString n else toString n

/-- Zero-pad to four digits. -/
def pad4 (n : ℤ) : String :=
  if n < 10 then "000" ++ toString n
  else if n < 100 then "00" ++ toString n
  else if n < 1000 then "0" ++ toString n
  else toString n

/-- `datetime.fromtimestamp(ts).strftime("%Y-%m-%d")`, modelled in UTC;
`none` models the exception raised for a timestamp whose year leaves the
representable range. -/
def dateOfEpoch (q : ℚ) : Option String :=
  let c := civilFromDays ⌊q / 86400⌋
  if 1 ≤ c.1 ∧ c.1 ≤ 9999 then
    some (pad4 c.1 ++ "-" ++ pad2 c.2.1 ++ "-" ++ pad2 c.2.2)
  else none

/-- The `data_date_label` computation of `analyze_all_data`: the date (or
date range) spanned by the positive numeric creation timestamps, falling
back to the all-data label when there are none or when date rendering
raises. -/
def dataDateLabel (items : List SItem) : String :=
  match items with
  | [] => "全量数据"
  | _ :: _ =>
    let timestamps := items.filterMap (fun i =>
      match i.created_at with
      | .num n => if 0 < n then some n else none
      | .str _ => none)
    match timestamps with
    | [] => "全量数据"
    | t :: ts =>
      let ts_min := (ts.map tsNormalize).foldl min (tsNormalize t)
      let ts_max := (ts.map tsNormalize).foldl max (tsNormalize t)
      match dateOfEpoch ts_min, dateOfEpoch ts_max with
      | some dmin, some dmax => if dmin = dmax then dmin else dmin ++ " ~ " ++ dmax
      | _, _ => "全量数据"

/-! ### Competitor analysis and the orchestrator -/

/-- One per-organization entry of `competitor_analysis`. -/
structure CompetitorEntry where
  total : ℕ
  sentiment_dist : List (String × ℕ)
  sentiment_pct : List (String × ℚ)
  avg_engagement : ℚ
  items : List SItem
deriving DecidableEq, Repr

/-- The competitor-comparison aggregation of `analyze_all_data`:
organizations in configured order, only those with at least one item. -/
def competitorAnalysis (cfg : Config) (items : List SItem) :
    List (String × CompetitorEntry) :=
  cfg.competitor_keywords.filterMap (fun p =>
    let org_items := items.filter (fun i => i.competitor == p.1)
    if org_items.isEmpty then none
    else
      let dist := counterOf (org_items.map (·.sentiment_label))
      some (p.1,
        { total := org_items.length
          sentiment_dist := dist
          sentiment_pct := dist.map (fun q =>
            (q.1, round1 ((q.2 : ℚ) / (org_items.length : ℚ) * 100)))
          avg_engagement :=
            round1 ((sumListEng org_items : ℚ) / (org_items.length : ℚ))
          items := org_items }))

/-- The `metadata` block of the analysis result. -/
structure Metadata where
  analysis_date : String
  total_platforms : ℕ
  data_date : String
deriving DecidableEq, Repr

/-- The complete analysis result assembled by `analyze_all_data`. -/
structure AnalysisResult where
  metadata : Metadata
  metrics : AggregateMetrics
  risks : List RiskEntry
  topics : List TopicEntry
  kols : List KOLEntry
  platform_analysis : List (String × PlatformAnalysis)
  all_items : List SItem
  comments_analysis : CommentsAnalysis
  competitor_analysis : List (String × CompetitorEntry)
deriving DecidableEq, Repr

/-- `analyze_all_data(all_data, config, comments_data)` with the raw data
supplied directly (the claim's scenario; the alternative branch that
fetches from the external store is I/O outside the analytic core).  The
wall-clock reading `datetime.now().strftime(...)` is made explicit as the
`now` argument. -/
def analyze_all_data (all_data : List (String × List Raw)) (config : Config)
    (comments_data : List (JVal × List Comment)) (now : String) : AnalysisResult :=
  let all_items0 := all_data.foldl
    (fun acc p => acc ++ normalize_platform_data p.2 p.1) []
  let all_items1 := all_items0.map (classifyItem config)
  let cc := correlateComments config comments_data all_items1
  let all_items := cc.1
  let metrics := aggregate_metrics all_items
  let risks := detect_risks all_items config
  let topics := extract_trending_topics all_items
  let kols := identify_kols all_items config
  let platform_analysis := config.platforms.map (fun p =>
    (p, analyze_platform_data (all_items.filter (fun i => i.platform == p)) config))
  let data_date_label := dataDateLabel all_items
  let competitor_analysis := competitorAnalysis config all_items
  { metadata :=
      { analysis_date := now
        total_platforms := all_data.length
        data_date := data_date_label }
    metrics := metrics
    risks := risks
    topics := topics.take 10
    kols := kols
    platform_analysis := platform_analysis
    all_items := all_items
    comments_analysis := cc.2
    competitor_analysis := competitor_analysis }

/-- Overwrite the clock-derived `analysis_date` field with a fixed value,
leaving every other component of the result untouched. -/
def stripClock (r : AnalysisResult) : AnalysisResult :=
  { r with metadata := { r.metadata with analysis_date := "" } }

/-! ### Spec-side reference definitions -/

/-- Modelled from the spec: the section 4.2 decision table on
`(positive_count, negative_count)` after override suppression — both zero,
positive majority, negative majority, non-zero tie. -/
def sentimentDecisionTable (p n : ℕ) : String × ℚ × ℚ :=
  if p = 0 ∧ n = 0 then ("neutral", 0, 3/10)
  else if n < p then
    ("positive", min 1 ((p : ℚ) / ((p + n : ℕ) : ℚ)), min 1 (((p + n : ℕ) : ℚ) / 5))
  else if p < n then
    ("negative", -(min 1 ((n : ℚ) / ((p + n : ℕ) : ℚ))), min 1 (((p + n : ℕ) : ℚ) / 5))
  else ("neutral", 0, 1/2)

/-- Modelled from the spec: section 4.7's classifier for comments — the
same keyword counting and decision table as `classify_sentiment` but with
no override suppression of the negative count. -/
def classifySentimentNoOverride (text : String) (cfg : Config) : String × ℚ × ℚ :=
  let positive_count := countHits cfg.sentiment_positive text
  let negative_count := countHits cfg.sentiment_negative text
  let total_count := positive_count + negative_count
  if total_count = 0 then ("neutral", 0, 3/10)
  else if negative_count < positive_count then
    ("positive", min 1 ((positive_count : ℚ) / (total_count : ℚ)),
      min 1 ((total_count : ℚ) / 5))
  else if positive_count < negative_count then
    ("negative", -(min 1 ((negative_count : ℚ) / (total_count : ℚ))),
      min 1 ((total_count : ℚ) / 5))
  else ("neutral", 0, 1/2)

/-- Read a label's entry out of a sentiment histogram. -/
def histGet (h : Hist) (label : String) : ℕ :=
  if label = "positive" then h.positive
  else if label = "neutral" then h.neutral
  else if label = "negative" then h.negative
  else 0

/-! ### Concrete fixtures for witnesses and counterexamples -/

/-- A small concrete configuration. -/
def cfg0 : Config :=
  { sentiment_positive := ["good"]
    sentiment_negative := ["bad"]
    positive_override_keywords := ["fake"]
    risk_keywords := ["bad"]
    risk_priority_high_keywords := ["urgent"]
    competitor_keywords := [("org1", ["acme"])]
    platforms := ["xhs"] }

/-- A comment whose text holds both an override keyword and a negative
keyword. -/
def commentFakeBad : Comment :=
  { content := "fake bad", nickname := "n", like_count := 0 }

/-- A raw xhs record whose `liked_count` arrives as a non-numeric string. -/
def rawBadCount : Raw :=
  [("title", JVal.str "hi"), ("liked_count", JVal.str "abc")]

/-- A minimal raw xhs record with non-empty title. -/
def rawTitled : Raw :=
  [("title", JVal.str "hi")]

/-- The canonical item `normalize_platform_data` produces from
`rawTitled`. -/
def itemTitled : Item :=
  { id := JVal.str "", platform := "xhs", type := JVal.str "note"
    title := JVal.str "hi", content := "hi", url := JVal.str ""
    created_at := JVal.num 0, author_id := JVal.str ""
    author_name := JVal.str "", author_avatar := JVal.str ""
    engagement := [("likes", 0), ("comments", 0), ("shares", 0), ("collects", 0)]
    tags := [] }

/-- A negative item whose body text matches a risk keyword. -/
def itemRisky : SItem :=
  { id := JVal.str "i6", platform := "xhs", type := JVal.str "note"
    title := JVal.str "", content := "bad stuff", url := JVal.str ""
    created_at := JVal.num 0, author_id := JVal.str ""
    author_name := JVal.str "", author_avatar := JVal.str ""
    engagement := [("likes", 5)], tags := []
    sentiment_label := "negative", sentiment_score := -1
    sentiment_confidence := 1/5, competitor := "unknown"
    comments := none, comment_sentiment_dist := none }

/-- The risk entry `detect_risks` produces from `itemRisky` under
`cfg0`. -/
def entryRisky : RiskEntry :=
  { item := itemRisky, severity := "medium", keywords := ["bad"]
    engagement := 5, reason := "检测到风险关键词: bad" }

/-- An item carrying the same tag twice. -/
def itemTwoTags : SItem :=
  { id := JVal.str "i8", platform := "xhs", type := JVal.str "note"
    title := JVal.str "", content := "x", url := JVal.str ""
    created_at := JVal.num 0, author_id := JVal.str ""
    author_name := JVal.str "", author_avatar := JVal.str ""
    engagement := [("likes", 3)], tags := ["a", "a"]
    sentiment_label := "neutral", sentiment_score := 0
    sentiment_confidence := 3/10, competitor := "unknown"
    comments := none, comment_sentiment_dist := none }

/-! ### Helper lemmas: stability of the stable-sort model -/

theorem filter_orderedInsert_neg {α : Type _} (r : α → α → Prop) [DecidableRel r]
    (p : α → Bool) (a : α) (ha : p a = false) :
    ∀ l : List α, (List.orderedInsert r a l).filter p = l.filter p := by
  intro l
  induction l with
  | nil => simp [ha]
  | cons b t ih =>
    by_cases h : r a b
    · simp [List.orderedInsert, h, List.filter_cons, ha]
    · simp only [List.orderedInsert, if_neg h, List.filter_cons, ih]

theorem filter_orderedInsert_pos {α : Type _} (r : α → α → Prop) [DecidableRel r]
    (p : α → Bool) (a : α) (ha : p a = true) (hcl : ∀ b, p b = true → r a b) :
    ∀ l : List α, (List.orderedInsert r a l).filter p = a :: l.filter p := by
  intro l
  induction l with
  | nil => simp [ha]
  | cons b t ih =>
    by_cases h : r a b
    · simp [List.orderedInsert, h, List.filter_cons, ha]
    · have hb : p b = false := by
        cases hpb : p b
        · rfl
        · exact absurd (hcl b hpb) h
      simp only [List.orderedInsert, if_neg h, List.filter_cons, hb, ih]
      simp

theorem filter_insertionSort {α : Type _} (r : α → α → Prop) [DecidableRel r]
    (p : α → Bool) (hcl : ∀ x y, p x = true → p y = true → r x y) :
    ∀ l : List α, (List.insertionSort r l).filter p = l.filter p := by
  intro l
  induction l with
  | nil => rfl
  | cons a t ih =>
    rw [List.insertionSort]
    cases hpa : p a
    · rw [filter_orderedInsert_neg r p a hpa, ih, List.filter_cons]
      simp [hpa]
    · rw [filter_orderedInsert_pos r p a hpa (fun b hb => hcl a b hpa hb), ih,
        List.filter_cons]
      simp [hpa]

/-! ### Helper lemmas: insertion-ordered accumulator updates -/

theorem lookupNat_bumpCount (l : List (String × ℕ)) (k t : String) (d : ℕ) :
    lookupNat (bumpCount l k d) t =
      if k = t then lookupNat l t + d else lookupNat l t := by
  induction l with
  | nil => by_cases h : k = t <;> simp [bumpCount, lookupNat, h]
  | cons p rest ih =>
    obtain ⟨k0, v⟩ := p
    by_cases h0 : k0 = k
    · subst h0
      by_cases h : k0 = t <;> simp [bumpCount, lookupNat, h]
    · by_cases h : k0 = t
      · subst h
        have hk : ¬k = k0 := fun hh => h0 hh.symm
        simp [bumpCount, lookupNat, h0, hk]
      · simp [bumpCount, lookupNat, h0, h, ih]

theorem lookupEngA_bumpEng (l : List (String × ℤ)) (k t : String) (d : ℤ) :
    lookupEngA (bumpEng l k d) t =
      if k = t then lookupEngA l t + d else lookupEngA l t := by
  induction l with
  | nil => by_cases h : k = t <;> simp [bumpEng, lookupEngA, h]
  | cons p rest ih =>
    obtain ⟨k0, v⟩ := p
    by_cases h0 : k0 = k
    · subst h0
      by_cases h : k0 = t <;> simp [bumpEng, lookupEngA, h]
    · by_cases h : k0 = t
      · subst h
        have hk : ¬k = k0 := fun hh => h0 hh.symm
        simp [bumpEng, lookupEngA, h0, hk]
      · simp [bumpEng, lookupEngA, h0, h, ih]

theorem lookupHist_bumpHist (l : List (String × Hist)) (k t label : String) :
    lookupHist (bumpHist l k label) t =
      if k = t then (lookupHist l t).bump label else lookupHist l t := by
  induction l with
  | nil => by_cases h : k = t <;> simp [bumpHist, lookupHist, h]
  | cons p rest ih =>
    obtain ⟨k0, v⟩ := p
    by_cases h0 : k0 = k
    · subst h0
      by_cases h : k0 = t <;> simp [bumpHist, lookupHist, h]
    · by_cases h : k0 = t
      · subst h
        have hk : ¬k = k0 := fun hh => h0 hh.symm
        simp [bumpHist, lookupHist, h0, hk]
      · simp [bumpHist, lookupHist, h0, h, ih]

theorem histGet_bump_self (h : Hist) (label : String)
    (hl : label = "positive" ∨ label = "neutral" ∨ label = "negative") :
    histGet (h.bump label) label = histGet h label + 1 := by
  rcases hl with h1 | h1 | h1 <;> subst h1 <;> rfl

theorem tallyTags_stats (t : String) (ht : ¬t = "") (e : ℤ) (label : String) :
    ∀ (tags : List String) (acc : TagAcc),
      lookupNat (tallyTags acc tags e label).stats t =
        lookupNat acc.stats t + tags.count t := by
  intro tags
  induction tags with
  | nil => intro acc; simp [tallyTags]
  | cons s rest ih =>
    intro acc
    rw [tallyTags]
    by_cases hs : s = ""
    · subst hs
      rw [if_pos rfl, ih acc, List.count_cons]
      have : ¬("" == t) = true := by
        simpa using fun hh => ht hh.symm
      simp [this]
    · rw [if_neg hs, ih]
      show lookupNat (bumpCount acc.stats s 1) t + _ = _
      rw [lookupNat_bumpCount, List.count_cons]
      by_cases hst : s = t
      · subst hst
        simp
        omega
      · have : ¬(s == t) = true := by simpa using hst
        simp [hst, this]

theorem tallyTags_eng (t : String) (ht : ¬t = "") (e : ℤ) (label : String) :
    ∀ (tags : List String) (acc : TagAcc),
      lookupEngA (tallyTags acc tags e label).eng t =
        lookupEngA acc.eng t + (tags.count t : ℤ) * e := by
  intro tags
  induction tags with
  | nil => intro acc; simp [tallyTags]
  | cons s rest ih =>
    intro acc
    rw [tallyTags]
    by_cases hs : s = ""
    · subst hs
      rw [if_pos rfl, ih acc, List.count_cons]
      have : ¬("" == t) = true := by
        simpa using fun hh => ht hh.symm
      simp [this]
    · rw [if_neg hs, ih]
      show lookupEngA (bumpEng acc.eng s e) t + _ = _
      rw [lookupEngA_bumpEng, List.count_cons]
      by_cases hst : s = t
      · subst hst
        simp
        ring
      · have : ¬(s == t) = true := by simpa using hst
        simp [hst, this]

theorem tallyTags_hist (t : String) (ht : ¬t = "") (e : ℤ) (label : String)
    (hl : label = "positive" ∨ label = "neutral" ∨ label = "negative") :
    ∀ (tags : List String) (acc : TagAcc),
      histGet (lookupHist (tallyTags acc tags e label).senti t) label =
        histGet (lookupHist acc.senti t) label + tags.count t := by
  intro tags
  induction tags with
  | nil => intro acc; simp [tallyTags]
  | cons s rest ih =>
    intro acc
    rw [tallyTags]
    by_cases hs : s = ""
    · subst hs
      rw [if_pos rfl, ih acc, List.count_cons]
      have : ¬("" == t) = true := by
        simpa using fun hh => ht hh.symm
      simp [this]
    · rw [if_neg hs, ih]
      show histGet (lookupHist (bumpHist acc.senti s label) t) label + _ = _
      rw [lookupHist_bumpHist, List.count_cons]
      by_cases hst : s = t
      · subst hst
        rw [if_pos rfl, histGet_bump_self _ _ hl]
        simp
        omega
      · have : ¬(s == t) = true := by simpa using hst
        simp [hst, this]

theorem tagTally_append (items : List SItem) (item : SItem) :
    tagTally (items ++ [item]) =
      tallyTags (tagTally items) item.tags (sumEng item.engagement)
        item.sentiment_label := by
  simp [tagTally, List.foldl_append]

/-! ### Claim theorems -/

/-- `classify_sentiment` computed through the spec's decision table. -/
theorem classify_sentiment_eq_table (text : String) (cfg : Config) :
    classify_sentiment text cfg =
      sentimentDecisionTable (countHits cfg.sentiment_positive text)
        (suppressedNegativeCount text cfg) := by
  simp only [classify_sentiment, sentimentDecisionTable, suppressedNegativeCount]
  split_ifs <;> first | rfl | omega

/-- C4: for every text and keyword configuration, `classify_sentiment`
returns exactly the spec's decision table on the presence-based
`(positive_count, negative_count)` pair after override suppression, and
each keyword contributes at most one count per text regardless of
repetition (the counts are bounded by the number of configured
keywords). -/
theorem classify_sentiment_decision_table (text : String) (cfg : Config) :
    classify_sentiment text cfg =
      sentimentDecisionTable (countHits cfg.sentiment_positive text)
        (suppressedNegativeCount text cfg) ∧
    countHits cfg.sentiment_positive text ≤ cfg.sentiment_positive.length ∧
    suppressedNegativeCount text cfg ≤ cfg.sentiment_negative.length := by
  refine ⟨classify_sentiment_eq_table text cfg, ?_, ?_⟩
  · exact List.length_filter_le _ _
  · unfold suppressedNegativeCount
    split_ifs
    · exact Nat.zero_le _
    · exact List.length_filter_le _ _

/-- C7: `aggregate_metrics` on the empty item list returns
`total_items = 0` with every sentiment count, sentiment percentage,
engagement total/average and platform distribution zeroed (or empty),
and raises no error. -/
theorem aggregate_metrics_empty :
    aggregate_metrics [] =
      { total_items := 0
        sentiment_dist := [("positive", 0), ("neutral", 0), ("negative", 0)]
        sentiment_pct := [("positive", 0), ("neutral", 0), ("negative", 0)]
        total_engagement := 0
        avg_engagement := 0
        platform_dist := [] } := rfl

/-- C9: every item produced by `normalize_platform_data` has non-empty
derived body text; a record whose final body text is empty is silently
dropped. -/
theorem normalize_content_nonempty (raw_data : List Raw) (platform : String) :
    ∀ i ∈ normalize_platform_data raw_data platform, i.content ≠ "" := by
  intro i hi
  rw [normalize_platform_data, List.mem_filterMap] at hi
  obtain ⟨r, _, hr⟩ := hi
  unfold normalize_one at hr
  split at hr
  · exact absurd hr (by simp)
  · split at hr
    · exact absurd hr (by simp)
    · next h =>
      cases hr
      exact h

/-- Witness for C9: a concrete xhs record yields a concrete item with
non-empty body text. -/
theorem normalize_content_nonempty_witness : itemTitled.content ≠ "" :=
  normalize_content_nonempty [rawTitled] "xhs" itemTitled (by decide)

/-- C10: for every platform identifier outside
`{"xhs", "dy", "douyin", "bili", "wb"}`, `normalize_platform_data`
returns the empty list for every raw record batch, raising no error. -/
theorem normalize_unknown_platform (platform : String)
    (h : platform ∉ ["xhs", "dy", "douyin", "bili", "wb"]) :
    ∀ raw_data : List Raw, normalize_platform_data raw_data platform = [] := by
  intro raw_data
  simp only [List.mem_cons, List.not_mem_nil, or_false, not_or] at h
  obtain ⟨h1, h2, h3, h4, h5⟩ := h
  rw [normalize_platform_data, List.filterMap_eq_nil_iff]
  intro r _
  unfold normalize_one buildPlatform
  simp [h1, h2, h3, h4, h5]

/-- Witness for C10: the unrecognized platform `"tiktok"` yields the
empty list on a one-record batch. -/
theorem normalize_unknown_platform_witness :
    normalize_platform_data [rawTitled] "tiktok" = [] :=
  normalize_unknown_platform "tiktok" (by decide) [rawTitled]

/-- C6: no entry of the `detect_risks` output refers to an item whose
sentiment label is `"positive"` — every flagged item is labeled
`"negative"` or `"neutral"`. -/
theorem detect_risks_no_positive (items : List SItem) (cfg : Config) :
    ∀ r ∈ detect_risks items cfg,
      r.item.sentiment_label = "negative" ∨ r.item.sentiment_label = "neutral" := by
  intro r hr
  rw [detect_risks, (List.perm_insertionSort riskLe _).mem_iff,
    List.mem_filterMap] at hr
  obtain ⟨it, _, he⟩ := hr
  simp only [riskEntryOf] at he
  split_ifs at he with h1 h2 h3 h4 <;>
    first
      | exact Option.noConfusion he
      | (injection he with he2
         subst he2
         exact h1)

/-- Witness for C6: a concrete risk entry produced by `detect_risks` on a
negative item carries a non-positive label. -/
theorem detect_risks_no_positive_witness :
    entryRisky.item.sentiment_label = "negative" ∨
      entryRisky.item.sentiment_label = "neutral" :=
  detect_risks_no_positive [itemRisky] cfg0 entryRisky
    (List.mem_singleton_self entryRisky)

/-- C5: the `detect_risks` output is sorted by the severity/engagement
key — every high-severity entry precedes every medium-severity entry and
equal-severity entries are in descending total engagement — and entries
tied on both severity and engagement keep their encounter order from the
input (the filtered output at any fixed severity/engagement key equals
the unsorted entry list at that key). -/
theorem detect_risks_ordering (items : List SItem) (cfg : Config) :
    List.Sorted riskLe (detect_risks items cfg) ∧
    ∀ (sv : String) (e : ℤ),
      (detect_risks items cfg).filter
          (fun r => r.severity == sv && r.engagement == e) =
        (items.filterMap (riskEntryOf cfg)).filter
          (fun r => r.severity == sv && r.engagement == e) := by
  constructor
  · exact List.sorted_insertionSort riskLe _
  · intro sv e
    apply filter_insertionSort
    intro x y hx hy
    simp only [Bool.and_eq_true, beq_iff_eq] at hx hy
    right
    constructor
    · rw [hx.1, hy.1]
    · rw [hx.2, hy.2]

/-- C8: one more item whose tag list contains a tag `t` exactly `k` times
adds `k` to `t`'s occurrence count in the accumulators of
`extract_trending_topics`, adds `k` times the item's total engagement to
`t`'s engagement sum, and adds `k` to the entry of the item's sentiment
label in `t`'s histogram — raw repetitions count, not distinct tags. -/
theorem trending_topics_tag_repetition (items : List SItem) (item : SItem)
    (t : String) (ht : t ≠ "")
    (hl : item.sentiment_label = "positive" ∨ item.sentiment_label = "neutral" ∨
      item.sentiment_label = "negative") :
    lookupNat (tagTally (items ++ [item])).stats t =
      lookupNat (tagTally items).stats t + item.tags.count t ∧
    lookupEngA (tagTally (items ++ [item])).eng t =
      lookupEngA (tagTally items).eng t +
        (item.tags.count t : ℤ) * sumEng item.engagement ∧
    histGet (lookupHist (tagTally (items ++ [item])).senti t) item.sentiment_label =
      histGet (lookupHist (tagTally items).senti t) item.sentiment_label +
        item.tags.count t := by
  rw [tagTally_append]
  exact ⟨tallyTags_stats t ht _ _ _ _, tallyTags_eng t ht _ _ _ _,
    tallyTags_hist t ht _ _ hl _ _⟩

/-- Witness for C8: an item tagged `["a", "a"]` adds two occurrences of
`"a"`, twice its engagement, and two neutral histogram entries. -/
theorem trending_topics_tag_repetition_witness :
    lookupNat (tagTally ([] ++ [itemTwoTags])).stats "a" =
      lookupNat (tagTally []).stats "a" + itemTwoTags.tags.count "a" ∧
    lookupEngA (tagTally ([] ++ [itemTwoTags])).eng "a" =
      lookupEngA (tagTally []).eng "a" +
        (itemTwoTags.tags.count "a" : ℤ) * sumEng itemTwoTags.engagement ∧
    histGet (lookupHist (tagTally ([] ++ [itemTwoTags])).senti "a")
        itemTwoTags.sentiment_label =
      histGet (lookupHist (tagTally []).senti "a") itemTwoTags.sentiment_label +
        itemTwoTags.tags.count "a" :=
  trending_topics_tag_repetition [] itemTwoTags "a" (by decide)
    (Or.inr (Or.inl rfl))

/-- C2 counterexample: a comment containing both an override keyword and a
negative keyword is scored by the comment loop as neutral (the override
zeroed its negative count), while the spec's suppression-free classifier
labels it negative — so the attached sentiment does not equal the
suppression-free result. -/
theorem comment_sentiment_override_counterexample :
    (scoreComment cfg0 commentFakeBad).sentiment = some ("neutral", 0) ∧
    (classifySentimentNoOverride commentFakeBad.content cfg0).1 = "negative" :=
  ⟨rfl, rfl⟩

/-- C2 amended: the comment loop scores each comment with the same
`classify_sentiment`, override suppression included — a comment with
non-empty text containing an override keyword has its negative count
zeroed, so it is attached `("neutral", 0)` when it has no positive hits
and `("positive", 1)` otherwise. -/
theorem comment_sentiment_uses_override_suppression (cfg : Config) (c : Comment)
    (hne : c.content ≠ "")
    (hov : (cfg.positive_override_keywords.any fun kw => containsSub kw c.content) = true) :
    (scoreComment cfg c).sentiment =
      some (if countHits cfg.sentiment_positive c.content = 0
        then (("neutral" : String), (0 : ℚ)) else ("positive", 1)) := by
  have hzero : suppressedNegativeCount c.content cfg = 0 := by
    unfold suppressedNegativeCount
    rcases Nat.eq_zero_or_pos (countHits cfg.sentiment_negative c.content) with h | h
    · simp [h]
    · simp [hov, h]
  simp only [scoreComment, if_neg hne]
  rw [classify_sentiment_eq_table, hzero]
  unfold sentimentDecisionTable
  rcases Nat.eq_zero_or_pos (countHits cfg.sentiment_positive c.content) with hp | hp
  · simp [hp]
  · have hpz := Nat.pos_iff_ne_zero.mp hp
    have hpne : (countHits cfg.sentiment_positive c.content : ℚ) ≠ 0 := by
      exact_mod_cast hpz
    simp [hpz, hp, div_self hpne]

/-- Witness for C2's amended theorem at a concrete comment and
configuration. -/
theorem comment_sentiment_uses_override_suppression_witness :
    (scoreComment cfg0 commentFakeBad).sentiment =
      some (if countHits cfg0.sentiment_positive commentFakeBad.content = 0
        then (("neutral" : String), (0 : ℚ)) else ("positive", 1)) :=
  comment_sentiment_uses_override_suppression cfg0 commentFakeBad
    (by decide) (by decide)

/-- C3 counterexample: an xhs record with non-empty title whose
`liked_count` is the non-numeric string `"abc"` yields no canonical item —
the record is dropped, not normalized with a 0 fallback. -/
theorem nonnumeric_engagement_drops_record :
    normalize_platform_data [rawBadCount] "xhs" = [] := rfl

/-- C3 amended: the 0 fallback applies to missing or empty/falsy
engagement values; a non-empty non-numeric string makes the integer
conversion raise, so normalization skips the whole record and produces no
canonical item from it. -/
theorem engagement_fallback_and_drop (r : Raw) (s : String)
    (hval : getJ r "liked_count" (JVal.str "0") = JVal.str s)
    (hs : s ≠ "") (hparse : pyIntStr s = none) :
    normalize_platform_data [r] "xhs" = [] ∧
    engField [("liked_count", JVal.str "")] "liked_count" = some 0 := by
  refine ⟨?_, rfl⟩
  have hef : engField r "liked_count" = none := by
    simp only [engField, hval]
    simp [jFalsy, hs, hparse]
  simp [normalize_platform_data, normalize_one, buildPlatform, buildXhs, hef]

/-- Witness for C3's amended theorem at the concrete record. -/
theorem engagement_fallback_and_drop_witness :
    normalize_platform_data [rawBadCount] "xhs" = [] ∧
    engField [("liked_count", JVal.str "")] "liked_count" = some 0 :=
  engagement_fallback_and_drop rawBadCount "abc" (by decide) (by decide)
    (by decide)

/-- C1 counterexample: two runs of `analyze_all_data` on identical raw
input (`all_data`, `config`, `comments_data`) but different wall-clock
readings produce different `AnalysisResult` values — the result embeds
`datetime.now()` in `metadata.analysis_date`, so it is not bit-identical
across runs. -/
theorem analyze_all_data_clock_dependent :
    analyze_all_data [] cfg0 [] "2026-01-01 00:00:00" ≠
      analyze_all_data [] cfg0 [] "2026-01-02 00:00:00" := by
  intro h
  have h2 : (analyze_all_data [] cfg0 [] "2026-01-01 00:00:00").metadata.analysis_date =
      (analyze_all_data [] cfg0 [] "2026-01-02 00:00:00").metadata.analysis_date :=
    congrArg (fun r => r.metadata.analysis_date) h
  rw [show (analyze_all_data [] cfg0 [] "2026-01-01 00:00:00").metadata.analysis_date
        = "2026-01-01 00:00:00" from rfl,
    show (analyze_all_data [] cfg0 [] "2026-01-02 00:00:00").metadata.analysis_date
        = "2026-01-02 00:00:00" from rfl] at h2
  exact absurd h2 (by decide)

/-- C1 amended: apart from the clock-derived `metadata.analysis_date`
field, `analyze_all_data` is a pure function of its raw input — two runs
on the same `all_data`, `config` and `comments_data` agree on every other
component of the `AnalysisResult`, whatever the two clock readings. -/
theorem analyze_all_data_deterministic_up_to_clock
    (all_data : List (String × List Raw)) (cfg : Config)
    (comments_data : List (JVal × List Comment)) (t1 t2 : String) :
    stripClock (analyze_all_data all_data cfg comments_data t1) =
      stripClock (analyze_all_data all_data cfg comments_data t2) := rfl

end SentimentMonitor
